import Mathlib

/-!
Verification of the query-orchestration and session-cache subsystem of a
conversational front-end (a FastAPI service routing questions between a
Vectara retrieval backend and an OpenAI completion backend, with a bounded
in-process conversation history and a PDF ingestion path).

The definitions below are a shallow embedding of the program, translated
from the source. Network transports (the Vectara query and ingestion
endpoints, the OpenAI chat completion endpoint) and the filesystem are
modelled as explicit outcome parameters, so every function is pure and
executable. Python truthiness on optional strings (None and the empty
string are falsy) is modelled explicitly where the source branches on it.
-/

/-- Python str.lower, restricted to the character-wise lowering Lean offers. -/
def lowerStr (s : String) : String := String.mk (s.data.map Char.toLower)

/-- Python substring membership, the binary form of the in operator on str. -/
def strContains (s sub : String) : Bool := decide (sub.data <:+: s.data)

/-- Characters removed by Python str.strip with no arguments (the ASCII
whitespace the program can actually meet in chat content). -/
def isSpaceChar (c : Char) : Bool := c = ' ' ∨ c = '\t' ∨ c = '\n' ∨ c = '\r'

/-- Python str.strip with no arguments: drop surrounding whitespace. -/
def stripStr (s : String) : String :=
  String.mk (((s.data.dropWhile isSpaceChar).reverse.dropWhile isSpaceChar).reverse)

/-- Python str.endswith. -/
def endsWithStr (s suffix : String) : Bool := decide (suffix.data <:+ s.data)

/-- One message of the conversation history: a dict with role and content
keys, as appended by update_conversation_history. -/
structure Turn where
  role : String
  content : String
deriving DecidableEq, Repr

/-- MAX_MESSAGES = 60, the bound on the conversation history. -/
def MAX_MESSAGES : Nat := 60

/-- update_conversation_history: append a message unless the role is
invalid; when the length exceeds MAX_MESSAGES, pop the two oldest
entries (two pops at index 0, i.e. drop 2 at the front). -/
def update_conversation_history (history : List Turn) (role content : String) :
    List Turn :=
  if role ∉ (["user", "assistant"] : List String) then history
  else
    let h := history ++ [Turn.mk role content]
    if h.length > MAX_MESSAGES then h.drop 2 else h

/-- The keyword list of is_vectara_question. -/
def vectara_keywords : List String := ["search", "document", "file", "retrieve", "find"]

/-- is_vectara_question: true when any keyword is a substring of the
lowercased question. -/
def is_vectara_question (question : String) : Bool :=
  vectara_keywords.any (fun k => strContains (lowerStr question) k)

/-- Shape of a parsed 200-response body from the Vectara query endpoint,
as far as query_vectara inspects it. -/
inductive VectaraShape where
  /-- responseSet key absent, or present but falsy (empty list). -/
  | noResponseSet : VectaraShape
  /-- Indexing into responseSet[0].response[0] raised (malformed body);
  the Python exception text is carried. -/
  | malformed (excMsg : String) : VectaraShape
  /-- A top result exists; its optional text field (dict.get with default
  None). -/
  | topResult (text : Option String) : VectaraShape
deriving DecidableEq, Repr

/-- Transport outcome of the requests.post call inside query_vectara. -/
inductive VectaraHttp where
  /-- The post call itself raised. -/
  | exception (msg : String) : VectaraHttp
  /-- A response arrived, with its status code, raw text and parsed shape. -/
  | response (status : Nat) (text : String) (shape : VectaraShape) : VectaraHttp
deriving DecidableEq, Repr

/-- query_vectara: returns the top result text on a well-shaped 200
response, and descriptive strings on every other outcome; the only path
producing none is a 200 response whose top result lacks a text field. -/
def query_vectara (out : VectaraHttp) : Option String :=
  match out with
  | .exception e => some ("Exception during Vectara query: " ++ e)
  | .response status text shape =>
    if status = 200 then
      match shape with
      | .noResponseSet => some "No results found in Vectara response."
      | .malformed e => some ("Exception during Vectara query: " ++ e)
      | .topResult t => t
    else
      some ("Vectara query failed with status code " ++ toString status ++ ": " ++ text)

/-- Transport outcome of the requests.post call inside
ingest_pdf_to_vectara. -/
inductive IngestHttp where
  | exception (msg : String) : IngestHttp
  | response (status : Nat) (text : String) : IngestHttp
deriving DecidableEq, Repr

/-- ingest_pdf_to_vectara: status strings for the three outcomes. The
document text and identifier only shape the outgoing request, not the
returned message. -/
def ingest_pdf_to_vectara (out : IngestHttp) : String :=
  match out with
  | .response status text =>
    if status = 200 ∨ status = 201 then
      "Successfully ingested PDF content into Vectara."
    else
      "Failed to ingest PDF into Vectara: " ++ toString status ++ " " ++ text
  | .exception e => "Exception during Vectara ingestion: " ++ e

/-- The transport outcome of the OpenAI ChatCompletion.create call inside
optimize_with_gpt. -/
inductive GptHttp where
  /-- The call raised. -/
  | exception (msg : String) : GptHttp
  /-- A response arrived; none models a falsy response or a missing
  choices key, some gives the content of each choice message. -/
  | response (choices : Option (List String)) : GptHttp
deriving DecidableEq, Repr

/-- The system message appended (ephemerally, to a copy) before calling
the completion backend. -/
def system_message : Turn :=
  Turn.mk "system" "Proceeding with the user\x27s question."

/-- Result of optimize_with_gpt: the returned string, the conversation
history after the call, and the message list actually sent outbound. -/
structure GptResult where
  answer : String
  history : List Turn
  sentMessages : List Turn
deriving DecidableEq, Repr

/-- optimize_with_gpt: append the user question to history, send a copy of
the history plus the system message, and on success append the trimmed
first choice as an assistant turn. Failures return strings without
touching history further. -/
def optimize_with_gpt (history : List Turn) (question : String) (out : GptHttp) :
    GptResult :=
  let history1 := update_conversation_history history "user" question
  let messages := history1 ++ [system_message]
  match out with
  | .exception e =>
    GptResult.mk ("Error during OpenAI API call: " ++ e) history1 messages
  | .response choices =>
    match choices with
    | some (c :: _) =>
      let optimized := stripStr c
      GptResult.mk optimized
        (update_conversation_history history1 "assistant" optimized) messages
    | _ =>
      GptResult.mk "Sorry, I couldn\x27t process your request at the moment."
        history1 messages

/-- An uploaded file part: filename, MIME type and byte length, the three
attributes the endpoint inspects. -/
structure FileUpload where
  filename : String
  contentType : String
  size : Nat
deriving DecidableEq, Repr

/-- Outcome of writing the staged PDF with aiofiles. -/
inductive SaveOutcome where
  | ok : SaveOutcome
  | exception (msg : String) : SaveOutcome
deriving DecidableEq, Repr

/-- Outcome of PyPDF2 text extraction: a page list, each page yielding an
optional text, or a raised exception. -/
inductive ExtractOutcome where
  | pages (ps : List (Option String)) : ExtractOutcome
  | exception (msg : String) : ExtractOutcome
deriving DecidableEq, Repr

/-- The page-concatenation loop of the upload branch: truthy page texts
are joined with a trailing newline each. -/
def extract_text (ps : List (Option String)) : String :=
  ps.foldl (fun acc p =>
    match p with
    | some t => if t = "" then acc else acc ++ t ++ "\n"
    | none => acc) ""

/-- What the endpoint hands back: a JSON answer, a JSON message, a raised
HTTPException, or the implicit Python None when control falls off the end
of the handler. -/
inductive Response where
  | answer (s : String) : Response
  | message (s : String) : Response
  | httpError (code : Nat) (detail : String) : Response
  | noAnswer : Response
deriving DecidableEq, Repr

/-- MAX_FILE_SIZE = 10 MiB. -/
def MAX_FILE_SIZE : Nat := 10 * 1024 * 1024

/-- The file branch of the interact endpoint: extension, MIME and size
validation, staging write, extraction, then ingestion; each stage fails
fast with an HTTPException. -/
def interact_file (f : FileUpload) (save : SaveOutcome) (ext : ExtractOutcome)
    (ingest : IngestHttp) : Response :=
  if ¬ endsWithStr f.filename ".pdf" then
    .httpError 400 "Only PDF files are supported."
  else if f.contentType ≠ "application/pdf" then
    .httpError 400 "Invalid file type. Only PDF files are allowed."
  else if f.size > MAX_FILE_SIZE then
    .httpError 400 "File size exceeds the 10MB limit."
  else
    match save with
    | .exception e => .httpError 500 ("Failed to save uploaded PDF: " ++ e)
    | .ok =>
      match ext with
      | .exception e => .httpError 500 ("Failed to extract text from PDF: " ++ e)
      | .pages _ => .message (ingest_pdf_to_vectara ingest)

/-- Everything the interact endpoint produces: the HTTP-level response,
the conversation history after the request, and whether each outbound
gateway was invoked during the request. -/
structure InteractResult where
  response : Response
  history : List Turn
  vectaraQueried : Bool
  gptCalled : Bool
deriving DecidableEq, Repr

/-- The interact endpoint. A present file wins over a question; a falsy
question (absent, or the empty string — truthiness, no trimming) falls to
the 400 branch; a keyworded question goes to Vectara and answers only on
a truthy result (falling off the handler otherwise); any other question
goes to optimize_with_gpt. -/
def interact (history : List Turn) (file : Option FileUpload)
    (question : Option String) (save : SaveOutcome) (ext : ExtractOutcome)
    (ingest : IngestHttp) (vOut : VectaraHttp) (gOut : GptHttp) :
    InteractResult :=
  match file with
  | some f =>
    InteractResult.mk (interact_file f save ext ingest) history false false
  | none =>
    match question with
    | some q =>
      if q = "" then
        InteractResult.mk
          (.httpError 400 "Invalid request. Provide either a PDF file or a question.")
          history false false
      else if is_vectara_question q then
        match query_vectara vOut with
        | some p =>
          if p = "" then InteractResult.mk .noAnswer history true false
          else
            InteractResult.mk (.answer p)
              (update_conversation_history history "assistant" p) true false
        | none => InteractResult.mk .noAnswer history true false
      else
        let r := optimize_with_gpt history q gOut
        InteractResult.mk (.answer r.answer) r.history false true
    | none =>
      InteractResult.mk
        (.httpError 400 "Invalid request. Provide either a PDF file or a question.")
        history false false

/-- Replay a sequence of update_conversation_history calls from the empty
history the process starts with. -/
def applyOps (ops : List (String × String)) : List Turn :=
  ops.foldl (fun h p => update_conversation_history h p.1 p.2) []

/-- Every stored turn carries one of the two persistable roles. -/
def rolesOk (h : List Turn) : Prop :=
  ∀ t ∈ h, t.role = "user" ∨ t.role = "assistant"

instance (h : List Turn) : Decidable (rolesOk h) := by
  unfold rolesOk
  infer_instance

/-- The 61 appends of scenario 4: alternating valid roles from an empty
history. -/
def scenario4Ops : List (String × String) :=
  (List.range 61).map (fun i => (if i % 2 = 0 then "user" else "assistant", "m"))

/-! ## Helper lemmas -/

theorem update_length_le (h : List Turn) (r c : String)
    (hb : h.length ≤ MAX_MESSAGES) :
    (update_conversation_history h r c).length ≤ MAX_MESSAGES := by
  unfold update_conversation_history
  split
  · exact hb
  · dsimp only
    split
    · simp only [List.length_drop, List.length_append, List.length_singleton]
      omega
    · next hlt =>
      simp only [List.length_append, List.length_singleton] at hlt ⊢
      omega

theorem foldl_update_length_le (ops : List (String × String)) (h : List Turn)
    (hb : h.length ≤ MAX_MESSAGES) :
    (ops.foldl (fun acc p => update_conversation_history acc p.1 p.2) h).length
      ≤ MAX_MESSAGES := by
  induction ops generalizing h with
  | nil => exact hb
  | cons p ps ih =>
    exact ih _ (update_length_le h p.1 p.2 hb)

theorem update_valid_role_eq (h : List Turn) (r c : String)
    (hr : r ∈ (["user", "assistant"] : List String)) :
    update_conversation_history h r c =
      if (h ++ [Turn.mk r c]).length > MAX_MESSAGES then
        (h ++ [Turn.mk r c]).drop 2
      else h ++ [Turn.mk r c] := by
  unfold update_conversation_history
  rw [if_neg (not_not_intro hr)]

theorem rolesOk_update (h : List Turn) (r c : String) (hro : rolesOk h) :
    rolesOk (update_conversation_history h r c) := by
  unfold update_conversation_history
  split
  · exact hro
  · next hr =>
    rw [not_not] at hr
    have hall : rolesOk (h ++ [Turn.mk r c]) := by
      intro t ht
      rcases List.mem_append.mp ht with hmem | hmem
      · exact hro t hmem
      · simp only [List.mem_singleton] at hmem
        subst hmem
        simp only [List.mem_cons, List.not_mem_nil, or_false] at hr
        exact hr
    dsimp only
    split
    · intro t ht
      exact hall t (List.drop_subset 2 _ ht)
    · exact hall

theorem rolesOk_optimize (h : List Turn) (q : String) (out : GptHttp)
    (hro : rolesOk h) : rolesOk (optimize_with_gpt h q out).history := by
  unfold optimize_with_gpt
  have h1 : rolesOk (update_conversation_history h "user" q) :=
    rolesOk_update h "user" q hro
  match out with
  | .exception e => exact h1
  | .response none => exact h1
  | .response (some []) => exact h1
  | .response (some (c :: rest)) =>
    exact rolesOk_update _ "assistant" _ h1

/-! ## Claim C3: error translation in the retrieval gateway -/

/-- Claim C3 counterexample: on a non-200 status, a transport exception, or
a malformed 200 body, query_vectara returns a descriptive string, not
none, so the claim that every such outcome yields none is false. -/
theorem c3_counterexample :
    query_vectara (.response 500 "oops" .noResponseSet) ≠ none ∧
    query_vectara (.exception "boom") ≠ none ∧
    query_vectara (.response 200 "body" (.malformed "index error")) ≠ none := by
  refine ⟨?_, ?_, ?_⟩ <;> decide

/-- Claim C3 (amended): query_vectara returns none exactly when a 200
response carries a top result that lacks a text field; every transport
failure, non-200 status and malformed shape produces a descriptive
string instead. -/
theorem c3_none_iff (out : VectaraHttp) :
    query_vectara out = none ↔ ∃ s, out = .response 200 s (.topResult none) := by
  cases out with
  | exception e => simp [query_vectara]
  | response status text shape =>
    by_cases hs : status = 200
    · subst hs
      cases shape with
      | noResponseSet => simp [query_vectara]
      | malformed e => simp [query_vectara]
      | topResult t => cases t <;> simp [query_vectara]
    · simp [query_vectara, hs]

/-- Claim C3 witness: the single none-producing outcome, settled through
the amended theorem. -/
theorem c3_witness : query_vectara (.response 200 "body" (.topResult none)) = none :=
  (c3_none_iff (.response 200 "body" (.topResult none))).mpr ⟨"body", rfl⟩

/-! ## Claim C4: scenario 4, sixty-one appends -/

set_option maxRecDepth 8000 in
/-- Claim C4 counterexample: 61 valid appends from the empty history end
at length 59, not the 60 the claim states — the eviction pops two
messages once the 61st append exceeds the bound. -/
theorem c4_counterexample :
    (applyOps scenario4Ops).length = 59 ∧ (applyOps scenario4Ops).length ≠ 60 := by
  decide

set_option maxRecDepth 8000 in
/-- Claim C4 (amended): appending 61 turns sequentially to an initially
empty history yields a final history of length 59, the oldest
user+assistant pair having been evicted (the result is exactly the
61-turn sequence with its first two entries dropped). -/
theorem c4_sixty_one_appends :
    applyOps scenario4Ops = ((scenario4Ops.map (fun p => Turn.mk p.1 p.2)).drop 2) ∧
    (applyOps scenario4Ops).length = 59 := by
  decide

/-! ## Claim C5: history bound and pairwise eviction -/

/-- Claim C5: after any sequence of appends from the empty history the
length never exceeds MAX_MESSAGES, and whenever an append of a valid
role overflows the bound the store becomes the appended list with its
two oldest entries dropped together. -/
theorem c5_history_bound_and_eviction :
    (∀ ops : List (String × String), (applyOps ops).length ≤ MAX_MESSAGES) ∧
    (∀ (h : List Turn) (r c : String),
      r ∈ (["user", "assistant"] : List String) →
      (h ++ [Turn.mk r c]).length > MAX_MESSAGES →
      update_conversation_history h r c = (h ++ [Turn.mk r c]).drop 2) := by
  constructor
  · intro ops
    unfold applyOps
    exact foldl_update_length_le ops [] (by simp [MAX_MESSAGES])
  · intro h r c hr hlen
    rw [update_valid_role_eq h r c hr, if_pos hlen]

set_option maxRecDepth 8000 in
/-- Claim C5 witness: the bound evaluated on the 61-append sequence, and
the eviction equation evaluated on a full 60-turn history. -/
theorem c5_witness :
    (applyOps scenario4Ops).length ≤ MAX_MESSAGES ∧
    update_conversation_history (List.replicate 60 (Turn.mk "user" "m")) "user" "x" =
      ((List.replicate 60 (Turn.mk "user" "m")) ++ [Turn.mk "user" "x"]).drop 2 :=
  ⟨c5_history_bound_and_eviction.1 scenario4Ops,
   c5_history_bound_and_eviction.2 (List.replicate 60 (Turn.mk "user" "m")) "user" "x"
     (by decide) (by decide)⟩

/-! ## Claim C8: rejection of empty and whitespace-only questions -/

/-- Claim C8 counterexample: a whitespace-only question with no file is
not rejected — it reaches the router, invokes the completion gateway and
mutates the history, because the boundary check is Python truthiness,
which trims nothing. -/
theorem c8_counterexample :
    (interact [] none (some " ") .ok (.pages []) (.response 200 "")
      (.response 200 "" .noResponseSet) (.response (some ["ok"]))).gptCalled = true ∧
    (interact [] none (some " ") .ok (.pages []) (.response 200 "")
      (.response 200 "" .noResponseSet) (.response (some ["ok"]))).history =
      [Turn.mk "user" " ", Turn.mk "assistant" "ok"] ∧
    (interact [] none (some " ") .ok (.pages []) (.response 200 "")
      (.response 200 "" .noResponseSet) (.response (some ["ok"]))).response =
      .answer "ok" := by
  refine ⟨?_, ?_, ?_⟩ <;> decide

/-- Claim C8 (amended): only an absent question or a question that is the
exact empty string is rejected with the 400 client error; the rejection
leaves history unchanged and calls no gateway. A question that is merely
whitespace passes through to routing. -/
theorem c8_empty_question_rejected (history : List Turn) (save : SaveOutcome)
    (ext : ExtractOutcome) (ingest : IngestHttp) (vOut : VectaraHttp)
    (gOut : GptHttp) :
    interact history none (some "") save ext ingest vOut gOut =
      InteractResult.mk
        (.httpError 400 "Invalid request. Provide either a PDF file or a question.")
        history false false ∧
    interact history none none save ext ingest vOut gOut =
      InteractResult.mk
        (.httpError 400 "Invalid request. Provide either a PDF file or a question.")
        history false false := by
  exact ⟨rfl, rfl⟩

/-! ## Claim C10: the upload path never touches the history -/

/-- Claim C10: whenever a file is present, whatever the validation,
staging, extraction and ingestion outcomes and whether or not a question
accompanies it, the request leaves the session history unchanged and
invokes neither gateway used by the question path. -/
theorem c10_upload_no_history_change (history : List Turn) (f : FileUpload)
    (question : Option String) (save : SaveOutcome) (ext : ExtractOutcome)
    (ingest : IngestHttp) (vOut : VectaraHttp) (gOut : GptHttp) :
    (interact history (some f) question save ext ingest vOut gOut).history = history ∧
    (interact history (some f) question save ext ingest vOut gOut).vectaraQueried = false ∧
    (interact history (some f) question save ext ingest vOut gOut).gptCalled = false :=
  ⟨rfl, rfl, rfl⟩

/-! ## Claims C1, C2, C6, C7, C9: routing, short-circuit, failures, roles -/

theorem rolesOk_foldl (ops : List (String × String)) (h : List Turn)
    (hro : rolesOk h) :
    rolesOk (ops.foldl (fun acc p => update_conversation_history acc p.1 p.2) h) := by
  induction ops generalizing h with
  | nil => exact hro
  | cons p ps ih => exact ih _ (rolesOk_update h p.1 p.2 hro)

/-- Claim C1 counterexample: with a stored user turn hi immediately
followed by an assistant turn yo, re-asking hi does not return the cached
yo — the router holds no cache lookup, so it calls the completion
gateway, answers with the fresh completion, and mutates the history. -/
theorem c1_counterexample :
    (interact [Turn.mk "user" "hi", Turn.mk "assistant" "yo"] none (some "hi") .ok
      (.pages []) (.response 200 "") (.response 200 "" .noResponseSet)
      (.response (some ["ok"]))).gptCalled = true ∧
    (interact [Turn.mk "user" "hi", Turn.mk "assistant" "yo"] none (some "hi") .ok
      (.pages []) (.response 200 "") (.response 200 "" .noResponseSet)
      (.response (some ["ok"]))).response = .answer "ok" ∧
    (interact [Turn.mk "user" "hi", Turn.mk "assistant" "yo"] none (some "hi") .ok
      (.pages []) (.response 200 "") (.response 200 "" .noResponseSet)
      (.response (some ["ok"]))).history ≠
      [Turn.mk "user" "hi", Turn.mk "assistant" "yo"] := by
  refine ⟨?_, ?_, ?_⟩ <;> decide

/-- Claim C1 (amended): the router consults no session-history cache at
all; every non-empty question, whatever the prior turns, is routed purely
by keyword classification — keyworded questions hit the retrieval gateway
and all others invoke the completion gateway. -/
theorem c1_no_cache_lookup (history : List Turn) (q : String) (save : SaveOutcome)
    (ext : ExtractOutcome) (ingest : IngestHttp) (vOut : VectaraHttp) (gOut : GptHttp)
    (hq : q ≠ "") :
    (is_vectara_question q = true →
      (interact history none (some q) save ext ingest vOut gOut).vectaraQueried = true) ∧
    (is_vectara_question q = false →
      (interact history none (some q) save ext ingest vOut gOut).gptCalled = true) := by
  simp only [interact]
  rw [if_neg hq]
  constructor
  · intro hv
    rw [if_pos hv]
    cases hres : query_vectara vOut with
    | none => rfl
    | some p =>
      dsimp only
      split <;> rfl
  · intro hv
    rw [if_neg (by simp [hv])]

/-- Claim C1 witness: the completion gateway is invoked for a repeated
question even though a cached answer notionally exists. -/
theorem c1_witness :
    (interact [] none (some "hi") .ok (.pages []) (.response 200 "")
      (.response 200 "" .noResponseSet) (.response (some ["ok"]))).gptCalled = true :=
  (c1_no_cache_lookup [] "hi" .ok (.pages []) (.response 200 "")
    (.response 200 "" .noResponseSet) (.response (some ["ok"])) (by decide)).2 (by decide)

/-- Claim C2 counterexample: a retrieval-directed question whose lookup
yields none makes the handler fall off the end — no completion call, no
history append, no answer — instead of falling through to the
conversational path with a no-information marker. -/
theorem c2_counterexample :
    (interact [] none (some "find x") .ok (.pages []) (.response 200 "")
      (.response 200 "x" (.topResult none)) (.response (some ["ok"]))).response =
      .noAnswer ∧
    (interact [] none (some "find x") .ok (.pages []) (.response 200 "")
      (.response 200 "x" (.topResult none)) (.response (some ["ok"]))).gptCalled =
      false ∧
    (interact [] none (some "find x") .ok (.pages []) (.response 200 "")
      (.response 200 "x" (.topResult none)) (.response (some ["ok"]))).history = [] := by
  refine ⟨?_, ?_, ?_⟩ <;> decide

/-- Claim C2 (amended): when classification marks a question
retrieval-directed and the lookup result is falsy (none or the empty
string), the router returns no answer at all: the completion gateway is
not called and the history is left unchanged. -/
theorem c2_fallthrough (history : List Turn) (q : String) (save : SaveOutcome)
    (ext : ExtractOutcome) (ingest : IngestHttp) (vOut : VectaraHttp) (gOut : GptHttp)
    (hq : q ≠ "") (hv : is_vectara_question q = true)
    (hres : query_vectara vOut = none ∨ query_vectara vOut = some "") :
    (interact history none (some q) save ext ingest vOut gOut).response = .noAnswer ∧
    (interact history none (some q) save ext ingest vOut gOut).gptCalled = false ∧
    (interact history none (some q) save ext ingest vOut gOut).history = history := by
  simp only [interact]
  rw [if_neg hq, if_pos hv]
  rcases hres with h | h <;> rw [h] <;> exact ⟨rfl, rfl, rfl⟩

/-- Claim C2 witness: the fall-through evaluated at a concrete
retrieval-directed question whose lookup yields none. -/
theorem c2_witness :
    (interact [] none (some "find y") .ok (.pages []) (.response 200 "")
      (.response 200 "y" (.topResult none)) (.response (some ["ok"]))).gptCalled =
      false :=
  (c2_fallthrough [] "find y" .ok (.pages []) (.response 200 "")
    (.response 200 "y" (.topResult none)) (.response (some ["ok"]))
    (by decide) (by decide) (Or.inl (by decide))).2.1

/-- Claim C6: a retrieval-directed question whose lookup returns a truthy
passage short-circuits — the answer is the passage verbatim, the
completion gateway is never invoked, and the history mutation is exactly
one assistant-turn append of the passage (with the usual eviction when
the bound overflows); no user turn is added on this path. -/
theorem c6_retrieval_short_circuit (history : List Turn) (q p : String)
    (save : SaveOutcome) (ext : ExtractOutcome) (ingest : IngestHttp)
    (vOut : VectaraHttp) (gOut : GptHttp)
    (hq : q ≠ "") (hv : is_vectara_question q = true)
    (hres : query_vectara vOut = some p) (hp : p ≠ "") :
    (interact history none (some q) save ext ingest vOut gOut).response = .answer p ∧
    (interact history none (some q) save ext ingest vOut gOut).gptCalled = false ∧
    (interact history none (some q) save ext ingest vOut gOut).history =
      update_conversation_history history "assistant" p ∧
    ((interact history none (some q) save ext ingest vOut gOut).history =
        history ++ [Turn.mk "assistant" p] ∨
      (interact history none (some q) save ext ingest vOut gOut).history =
        (history ++ [Turn.mk "assistant" p]).drop 2) := by
  simp only [interact]
  rw [if_neg hq, if_pos hv, hres]
  dsimp only
  rw [if_neg hp]
  refine ⟨rfl, rfl, rfl, ?_⟩
  dsimp only
  rw [update_valid_role_eq history "assistant" p (by simp)]
  split
  · exact Or.inr rfl
  · exact Or.inl rfl

/-- Claim C6 witness: the short-circuit evaluated at a concrete keyworded
question and passage. -/
theorem c6_witness :
    (interact [] none (some "find it") .ok (.pages []) (.response 200 "")
      (.response 200 "x" (.topResult (some "passage")))
      (.response (some ["ok"]))).response = .answer "passage" :=
  (c6_retrieval_short_circuit [] "find it" "passage" .ok (.pages []) (.response 200 "")
    (.response 200 "x" (.topResult (some "passage"))) (.response (some ["ok"]))
    (by decide) (by decide) (by decide) (by decide)).1

/-- Claim C7 counterexample: on a completion transport exception the
returned string describes the exception instead of being the fixed
apology, and the history has grown by the user turn appended before the
call, so its length is not unchanged. -/
theorem c7_counterexample :
    (interact [] none (some "hello") .ok (.pages []) (.response 200 "")
      (.response 200 "" .noResponseSet) (.exception "boom")).response =
      .answer "Error during OpenAI API call: boom" ∧
    (interact [] none (some "hello") .ok (.pages []) (.response 200 "")
      (.response 200 "" .noResponseSet) (.exception "boom")).response ≠
      .answer "Sorry, I couldn\x27t process your request at the moment." ∧
    (interact [] none (some "hello") .ok (.pages []) (.response 200 "")
      (.response 200 "" .noResponseSet) (.exception "boom")).history =
      [Turn.mk "user" "hello"] := by
  refine ⟨?_, ?_, ?_⟩ <;> decide

/-- Claim C7 (amended): on a failed completion call the failure string is
never appended to history — the only mutation is the user-question turn
appended before the call — but the returned string is the fixed apology
only when the response lacks choices; a transport exception yields an
exception-describing message instead. -/
theorem c7_failure_no_pollution (history : List Turn) (q : String)
    (save : SaveOutcome) (ext : ExtractOutcome) (ingest : IngestHttp)
    (vOut : VectaraHttp) (e : String)
    (hq : q ≠ "") (hv : is_vectara_question q = false) :
    ((interact history none (some q) save ext ingest vOut (.exception e)).response =
        .answer ("Error during OpenAI API call: " ++ e) ∧
      (interact history none (some q) save ext ingest vOut (.exception e)).history =
        update_conversation_history history "user" q) ∧
    ((interact history none (some q) save ext ingest vOut (.response none)).response =
        .answer "Sorry, I couldn\x27t process your request at the moment." ∧
      (interact history none (some q) save ext ingest vOut (.response none)).history =
        update_conversation_history history "user" q) ∧
    ((interact history none (some q) save ext ingest vOut (.response (some []))).response =
        .answer "Sorry, I couldn\x27t process your request at the moment." ∧
      (interact history none (some q) save ext ingest vOut (.response (some []))).history =
        update_conversation_history history "user" q) := by
  refine ⟨⟨?_, ?_⟩, ⟨?_, ?_⟩, ⟨?_, ?_⟩⟩ <;>
    simp [interact, optimize_with_gpt, hq, hv]

/-- Claim C7 witness: the fixed apology is returned on a chosen-less
completion response for a concrete conversational question. -/
theorem c7_witness :
    (interact [] none (some "hello") .ok (.pages []) (.response 200 "")
      (.response 200 "" .noResponseSet) (.response none)).response =
      .answer "Sorry, I couldn\x27t process your request at the moment." :=
  (c7_failure_no_pollution [] "hello" .ok (.pages []) (.response 200 "")
    (.response 200 "" .noResponseSet) "boom" (by decide) (by decide)).2.1.1

/-- Claim C9: appends with a role outside user/assistant are silent
no-ops; replaying any append sequence from the empty history, and any
interact request from a well-roled history, keeps every stored turn at
role user or assistant; and the outbound completion message list is the
post-append history plus the ephemeral system message, which is never
persisted. -/
theorem c9_role_guard :
    (∀ (h : List Turn) (r c : String), r ≠ "user" → r ≠ "assistant" →
      update_conversation_history h r c = h) ∧
    (∀ ops : List (String × String), rolesOk (applyOps ops)) ∧
    (∀ (h : List Turn) (file : Option FileUpload) (question : Option String)
      (save : SaveOutcome) (ext : ExtractOutcome) (ingest : IngestHttp)
      (vOut : VectaraHttp) (gOut : GptHttp), rolesOk h →
      rolesOk (interact h file question save ext ingest vOut gOut).history) ∧
    (∀ (h : List Turn) (q : String) (out : GptHttp),
      (optimize_with_gpt h q out).sentMessages =
        update_conversation_history h "user" q ++ [system_message]) := by
  refine ⟨?_, ?_, ?_, ?_⟩
  · intro h r c h1 h2
    unfold update_conversation_history
    rw [if_pos (by simp [h1, h2])]
  · intro ops
    exact rolesOk_foldl ops [] (by intro t ht; cases ht)
  · intro h file question save ext ingest vOut gOut hro
    cases file with
    | some f => exact hro
    | none =>
      cases question with
      | none => exact hro
      | some q =>
        simp only [interact]
        split
        · exact hro
        · split
          · split
            · split
              · exact hro
              · exact rolesOk_update h "assistant" _ hro
            · exact hro
          · exact rolesOk_optimize h q gOut hro
  · intro h q out
    cases out with
    | exception e => rfl
    | response choices =>
      cases choices with
      | none => rfl
      | some l =>
        cases l with
        | nil => rfl
        | cons c rest => rfl

/-- Claim C9 witness: a system-role append is a no-op on the empty
history; a concrete request preserves well-roled history; and the
outbound message list for a concrete call carries the system message
after the appended history. -/
theorem c9_witness :
    update_conversation_history [] "system" "Proceeding" = [] ∧
    rolesOk (interact [] none (some "hello") .ok (.pages []) (.response 200 "")
      (.response 200 "" .noResponseSet) (.response (some ["ok"]))).history ∧
    (optimize_with_gpt [] "hello" (.response (some ["ok"]))).sentMessages =
      update_conversation_history [] "user" "hello" ++ [system_message] :=
  ⟨c9_role_guard.1 [] "system" "Proceeding" (by decide) (by decide),
   c9_role_guard.2.2.1 [] none (some "hello") .ok (.pages []) (.response 200 "")
     (.response 200 "" .noResponseSet) (.response (some ["ok"])) (by decide),
   c9_role_guard.2.2.2 [] "hello" (.response (some ["ok"]))⟩
